import Mathlib

set_option maxRecDepth 100000

/-!
Verification of the route-matrix proxy (`src/app/api/route-matrix/route.ts`)
and the server auth helper (`src/lib/auth/serverAuth.ts`) of the
gas-stations repository, as a shallow embedding in Lean 4.

Modelling conventions:
* JS strings are Lean `String`s; a missing or empty request field is `""`
  (both are JS-falsy, and the handler only ever tests them for truthiness
  before using them as strings).
* Optional body fields with destructuring defaults (`mode = 'DRIVE'`, ...)
  are `Option String`: `none` is an absent key (default applies), `some ""`
  is a present empty string (the JS default does NOT apply then).
* `Number(s)` from JS is modelled by the constructor `JNum.num s`, which
  records the source string: this is an injective refinement of JS number
  parsing (distinct JS numbers never collide), sound for every claim here
  because the claims only compare parse results of identical strings.
  `JNum.undef` is `undefined` obtained by destructuring past the end of an
  array.
* Timestamps are `Int` milliseconds (`Date.now()`); the handler reads the
  clock twice (cache lookup, line 41, and cache store, line 107), so `POST`
  takes the two readings `now` and `nowStore`.
* The external `fetch` is an oracle `RouteMatrixBody → UpstreamResponse`
  passed to `POST`; `response.ok` is the Fetch-spec `200 ≤ status ≤ 299`;
  a body on which `response.json()` would throw is `Except.error msg`.
* The global `Map` cache is an association list with overwrite-on-set,
  threaded in and out of `POST`.
* Exceptions reaching the handler's `catch` produce the 500 response with
  the exception's message (`error.message || 'Internal Server Error'`).
-/

/-- Fuel-driven worker for `jsSplit`: walks the character list, emitting the
accumulated segment each time the (non-empty) separator occurs, consuming
the separator; on exhausted input the final segment is emitted. The fuel
only makes the recursion structural (so that concrete runs reduce inside
the kernel); `jsSplit` supplies enough fuel for it never to run out. -/
def jsSplitGo (sep : List Char) : Nat → List Char → List Char → List (List Char)
  | 0, s, acc => [acc.reverse ++ s]
  | fuel + 1, s, acc =>
    if sep.isPrefixOf s ∧ sep ≠ [] then
      acc.reverse :: jsSplitGo sep fuel (s.drop sep.length) []
    else
      match s with
      | [] => [acc.reverse]
      | c :: rest => jsSplitGo sep fuel rest (c :: acc)

/-- JS `s.split(sep)` for a non-empty string separator: splits on each
non-overlapping occurrence of `sep`, left to right; a string without the
separator yields the one-element list `[s]`, in particular
`"".split(sep) = [""]`. -/
def jsSplit (s sep : String) : List String :=
  (jsSplitGo sep.data (s.data.length + 1) s.data []).map String.mk

/-- JS `s.toUpperCase()` for the ASCII strings used here (`mode`/`units`).
-/
def jsToUpper (s : String) : String :=
  ⟨s.data.map Char.toUpper⟩

/-- JS `s.startsWith(sep)`. -/
def jsStartsWith (s sep : String) : Bool :=
  sep.data.isPrefixOf s.data

namespace RouteMatrix

/-- Result of JS `Number(s)` (represented by its source string, an injective
abstraction of JS number parsing), or `undefined` from destructuring past
the end of an array. -/
inductive JNum where
  | num (s : String)
  | undef
deriving DecidableEq, Repr

/-- JSON values, as returned by `response.json()`. Numbers are `Int`
(sufficient here: no claim involves fractional response payloads). -/
inductive Json where
  | null
  | boolean (b : Bool)
  | number (n : Int)
  | str (s : String)
  | array (elems : List Json)
  | object (fields : List (String × Json))

/-- JS truthiness of a JSON value (`if (data)`): `null`, `false`, `0` and
`""` are falsy; arrays and objects are always truthy. -/
def jsonTruthy : Json → Bool
  | .null => false
  | .boolean b => b
  | .number n => n != 0
  | .str s => s != ""
  | .array _ => true
  | .object _ => true

/-- Property access `j.k` on a JSON value: field lookup on objects,
`undefined` (`none`) on every other non-null value. Access on `null`
throws; callers handle that case explicitly. -/
def Json.getField : Json → String → Option Json
  | .object fields, k => fields.lookup k
  | _, _ => none

/-- The `{ error: msg }` body of `NextResponse.json({ error: ... })`. -/
def errorJson (msg : String) : Json := .object [("error", .str msg)]

-- `const MAX_DESTINATIONS = 25;`
def MAX_DESTINATIONS : Nat := 25

-- `const CACHE_TTL_MS = 1000 * 60 * 5;`
def CACHE_TTL_MS : Int := 1000 * 60 * 5

/-- `type CacheEntry = { data: any; timestamp: number };` -/
structure CacheEntry where
  data : Json
  timestamp : Int

/-- The global `Map<string, CacheEntry>`, as an association list. -/
abbrev Cache := List (String × CacheEntry)

/-- `cache.get(key)`. -/
def cacheGet (c : Cache) (k : String) : Option CacheEntry := c.lookup k

/-- `cache.set(key, e)`: overwrites any previous entry for `key`. -/
def cacheSet (c : Cache) (k : String) (e : CacheEntry) : Cache :=
  (k, e) :: c.filter (fun p => p.1 != k)

/-- `{ latLng: { latitude, longitude } }` innermost wire object. -/
structure LatLng where
  latitude : JNum
  longitude : JNum
deriving DecidableEq, Repr

/-- `{ location: { latLng: ... } }`. -/
structure Location where
  latLng : LatLng
deriving DecidableEq, Repr

/-- `{ waypoint: { location: ... } }`. -/
structure Waypoint where
  location : Location
deriving DecidableEq, Repr

/-- One element of the `origins` / `destinations` wire lists. -/
structure WaypointEntry where
  waypoint : Waypoint
deriving DecidableEq, Repr

/-- The outbound `requestBody` of the Routes API call (lines 56-82). -/
structure RouteMatrixBody where
  origins : List WaypointEntry
  destinations : List WaypointEntry
  travelMode : String
  languageCode : String
  units : String
deriving DecidableEq, Repr

/-- `{ lat, lng }` as produced by the destination parser (lines 50-53). -/
structure DestPair where
  lat : JNum
  lng : JNum
deriving DecidableEq, Repr

/-- Lines 49: `const [originLat, originLng] = origins.split(',').map(Number);`
(destructuring past the mapped array yields `undefined`). -/
def parseOrigin (origins : String) : JNum × JNum :=
  let parts := (jsSplit origins ",").map JNum.num
  (parts.getD 0 .undef, parts.getD 1 .undef)

/-- Lines 50-53: `destinations.split('|').map(d => { const [lat, lng] =
d.split(',').map(Number); return { lat, lng }; })`. -/
def parseDestinations (destinations : String) : List DestPair :=
  (jsSplit destinations "|").map (fun d =>
    let parts := (jsSplit d ",").map JNum.num
    { lat := parts.getD 0 .undef, lng := parts.getD 1 .undef })

/-- Wraps a parsed coordinate into the nested waypoint wire object. -/
def wrapWaypoint (lat lng : JNum) : WaypointEntry :=
  { waypoint := { location := { latLng := { latitude := lat, longitude := lng } } } }

/-- Lines 49-82: parse `origins`/`destinations` and build the nested
`requestBody` (the Geocoordinate Parser plus the Wire-Format Adapter). -/
def buildRequestBody (origins destinations mode units language : String) :
    RouteMatrixBody :=
  let origin := parseOrigin origins
  let destArray := parseDestinations destinations
  { origins := [wrapWaypoint origin.1 origin.2]
    destinations := destArray.map (fun p => wrapWaypoint p.lat p.lng)
    travelMode := jsToUpper mode
    languageCode := language
    units := jsToUpper units }

/-- `destinations.split('|').length` (line 34). -/
def destinationCount (destinations : String) : Nat :=
  (jsSplit destinations "|").length

/-- The cache key of line 39, after the defaults of line 23 were applied:
the template literal is literal string concatenation. -/
def fingerprint (origins destinations mode units language : String) : String :=
  origins ++ "|" ++ destinations ++ "|" ++ mode ++ "|" ++ units ++ "|" ++ language

/-- The parsed request body (`await request.json()` already destructured). -/
structure PostInput where
  origins : String
  destinations : String
  mode : Option String
  units : Option String
  language : Option String
deriving DecidableEq, Repr

/-- The environment: `process.env.GOOGLE_MAPS_API_KEY` (`none` = unset;
`some ""` is falsy just like `undefined` at line 30). -/
structure Env where
  apiKey : Option String
deriving DecidableEq, Repr

/-- What `fetch` delivered: the HTTP status and the parsed JSON body
(`Except.error m` models `response.json()` throwing with message `m`). -/
structure UpstreamResponse where
  status : Nat
  body : Except String Json

/-- Everything observable about one run of the handler: the HTTP response
(status and JSON body), the cache after the run, and which steps ran. -/
structure PostResult where
  status : Nat
  body : Json
  cache : Cache
  cacheLookedUp : Bool
  servedFromCache : Bool
  parserReached : Bool
  outboundCalled : Bool
  outboundBody : Option RouteMatrixBody

/-- `error.message || 'Internal Server Error'` in the catch-all (line 116). -/
def catchAllMsg (m : String) : String :=
  if m != "" then m else "Internal Server Error"

/-- Lines 97-103: `data.error?.message || 'Unknown'` for a non-`null` body
(the `null` case throws and is handled by the caller). Provider error
messages are strings in this API; a non-string `message` is elided to
`'Unknown'`. -/
def upstreamErrText (status : Nat) (data : Json) : String :=
  let msg := match data.getField "error" with
    | some e => match e.getField "message" with
      | some (.str s) => if s != "" then s else "Unknown"
      | _ => "Unknown"
    | none => "Unknown"
  "HTTP Error: " ++ toString status ++ " - " ++ msg

/-- Lines 84-112: the cache-miss tail of the handler — build the wire body,
call the Routes API, map errors, store on truthy success, return the data.
`cacheKey` is the fingerprint, `nowStore` the `Date.now()` of line 107. -/
def missFlow (origins destinations mode units language cacheKey : String)
    (fetchOracle : RouteMatrixBody → UpstreamResponse) (cache : Cache)
    (nowStore : Int) : PostResult :=
  let requestBody := buildRequestBody origins destinations mode units language
  let response := fetchOracle requestBody
  match response.body with
  | .error m =>
    -- `await response.json()` threw → outer catch → 500
    { status := 500, body := errorJson (catchAllMsg m), cache
      cacheLookedUp := true, servedFromCache := false, parserReached := true
      outboundCalled := true, outboundBody := some requestBody }
  | .ok data =>
    if !(200 ≤ response.status && response.status ≤ 299) then
      -- `!response.ok`
      if response.status == 429 then
        { status := 429, body := errorJson "Rate limit exceeded. Try later."
          cache, cacheLookedUp := true, servedFromCache := false
          parserReached := true, outboundCalled := true
          outboundBody := some requestBody }
      else
        match data with
        | .null =>
          -- `data.error?.message` on `null` throws a TypeError → catch → 500
          { status := 500
            body := errorJson "Cannot read properties of null (reading 'error')"
            cache, cacheLookedUp := true, servedFromCache := false
            parserReached := true, outboundCalled := true
            outboundBody := some requestBody }
        | _ =>
          { status := response.status
            body := errorJson (upstreamErrText response.status data)
            cache, cacheLookedUp := true, servedFromCache := false
            parserReached := true, outboundCalled := true
            outboundBody := some requestBody }
    else
      if jsonTruthy data then
        -- `cache.set(cacheKey, { data, timestamp: Date.now() });`
        { status := 200, body := data
          cache := cacheSet cache cacheKey { data := data, timestamp := nowStore }
          cacheLookedUp := true, servedFromCache := false, parserReached := true
          outboundCalled := true, outboundBody := some requestBody }
      else
        match data with
        | .null =>
          -- else-branch logging does `data.error?.message` on `null`:
          -- throws a TypeError → outer catch → 500
          { status := 500
            body := errorJson "Cannot read properties of null (reading 'error')"
            cache, cacheLookedUp := true, servedFromCache := false
            parserReached := true, outboundCalled := true
            outboundBody := some requestBody }
        | _ =>
          -- falsy non-null data: logged, not stored, returned as-is
          { status := 200, body := data, cache
            cacheLookedUp := true, servedFromCache := false
            parserReached := true, outboundCalled := true
            outboundBody := some requestBody }

/-- The handler `POST` (lines 20-118), for a request whose JSON body parsed.
`now` is the `Date.now()` of line 41, `nowStore` the one of line 107. -/
def POST (input : PostInput) (env : Env)
    (fetchOracle : RouteMatrixBody → UpstreamResponse) (cache : Cache)
    (now nowStore : Int) : PostResult :=
  let origins := input.origins
  let destinations := input.destinations
  let mode := input.mode.getD "DRIVE"
  let units := input.units.getD "METRIC"
  let language := input.language.getD "fr"
  if origins == "" || destinations == "" then
    -- `if (!origins || !destinations)`
    { status := 400, body := errorJson "Missing origins or destinations"
      cache, cacheLookedUp := false, servedFromCache := false
      parserReached := false, outboundCalled := false, outboundBody := none }
  else if env.apiKey.getD "" == "" then
    -- `if (!apiKey)`
    { status := 400, body := errorJson "Missing API key"
      cache, cacheLookedUp := false, servedFromCache := false
      parserReached := false, outboundCalled := false, outboundBody := none }
  else if destinationCount destinations > MAX_DESTINATIONS then
    -- error text is the template literal with MAX_DESTINATIONS interpolated
    { status := 400
      body := errorJson ("Exceeds max " ++ toString MAX_DESTINATIONS ++ " destinations.")
      cache, cacheLookedUp := false, servedFromCache := false
      parserReached := false, outboundCalled := false, outboundBody := none }
  else
    let cacheKey := fingerprint origins destinations mode units language
    match cacheGet cache cacheKey with
    | some cachedEntry =>
      if now - cachedEntry.timestamp < CACHE_TTL_MS then
        { status := 200, body := cachedEntry.data, cache
          cacheLookedUp := true, servedFromCache := true
          parserReached := false, outboundCalled := false, outboundBody := none }
      else
        missFlow origins destinations mode units language cacheKey
          fetchOracle cache nowStore
    | none =>
      missFlow origins destinations mode units language cacheKey
        fetchOracle cache nowStore

/-- An upstream oracle answering every call with the same response
(used to instantiate theorems at concrete runs). -/
def constOracle (status : Nat) (data : Json) : RouteMatrixBody → UpstreamResponse :=
  fun _ => { status := status, body := .ok data }

/-- A sample truthy success payload. -/
def samplePayload : Json := .object [("distanceMeters", .number 1000)]

/-- The spec's round-trip example request (origin `"34.0,-6.0"`,
destinations `"34.1,-6.1|34.2,-6.2"`, all optional fields absent). -/
def sampleInput : PostInput :=
  { origins := "34.0,-6.0", destinations := "34.1,-6.1|34.2,-6.2"
    mode := none, units := none, language := none }

/-- An environment with a configured API key. -/
def sampleEnv : Env := { apiKey := some "test-key" }

/-- A destinations string with 26 pipe-separated coordinate pairs. -/
def destinations26 : String := String.intercalate "|" (List.replicate 26 "34.1,-6.1")

/-- The fingerprint of a request, after the destructuring defaults of
line 23 (`mode = 'DRIVE'`, `units = 'METRIC'`, `language = 'fr'`). -/
def requestKey (input : PostInput) : String :=
  fingerprint input.origins input.destinations (input.mode.getD "DRIVE")
    (input.units.getD "METRIC") (input.language.getD "fr")

/-- The outbound wire body of a request, after the same defaults. -/
def requestWireBody (input : PostInput) : RouteMatrixBody :=
  buildRequestBody input.origins input.destinations (input.mode.getD "DRIVE")
    (input.units.getD "METRIC") (input.language.getD "fr")

end RouteMatrix

namespace ServerAuth

/-- The decoded Firebase ID token (only `uid` is consumed here). -/
structure DecodedToken where
  uid : String
deriving DecidableEq, Repr

/-- `verifyAuthToken` (serverAuth.ts lines 22-46). `authHeader` is
`request.headers.get('authorization')` (`none` = header absent);
`verifyIdToken` is the Firebase Admin verifier, with `Except.error`
modelling a rejected promise / thrown error, which the `try`/`catch`
converts to `null`. JS `split('Bearer ')[1]` yields `undefined` when the
array has one element; `undefined` and `""` are both falsy, so they are
merged into `""` here. -/
def verifyAuthToken (authHeader : Option String)
    (verifyIdToken : String → Except String DecodedToken) : Option String :=
  match authHeader with
  | none => none
  | some h =>
    if !(jsStartsWith h "Bearer ") then none
    else
      let token := (jsSplit h "Bearer ").getD 1 ""
      if token == "" then none
      else
        match verifyIdToken token with
        | .ok decodedToken => some decodedToken.uid
        | .error _ => none

/-- A concrete verifier accepting exactly one token (for concrete runs). -/
def sampleVerifier : String → Except String DecodedToken :=
  fun t => if t == "good-token" then .ok { uid := "user-1" } else .error "invalid token"

end ServerAuth

namespace RouteMatrix

/-! Helper lemmas about the cache and the miss path. -/

theorem cacheGet_cacheSet_self (c : Cache) (k : String) (e : CacheEntry) :
    cacheGet (cacheSet c k e) k = some e := by
  simp [cacheGet, cacheSet, List.lookup]

theorem lookup_filter_ne (c : Cache) (k k' : String) (h : k' ≠ k) :
    List.lookup k' (c.filter (fun p => p.1 != k)) = List.lookup k' c := by
  induction c with
  | nil => rfl
  | cons p t ih =>
    obtain ⟨a, b⟩ := p
    by_cases ha : a = k
    · subst ha
      have : (k' == a) = false := by simp [h]
      simp [List.filter, List.lookup, this, ih]
    · by_cases hk : k' = a
      · subst hk
        have hb : (k' != k) = true := by simp [ha]
        simp [List.filter, List.lookup, hb]
      · have h1 : (k' == a) = false := by simp [hk]
        have h2 : (a != k) = true := by simp [ha]
        simp [List.filter, List.lookup, h1, h2, ih]

theorem cacheGet_cacheSet_ne (c : Cache) (k k' : String) (e : CacheEntry)
    (h : k' ≠ k) : cacheGet (cacheSet c k e) k' = cacheGet c k' := by
  have hbeq : (k' == k) = false := by simp [h]
  simp [cacheGet, cacheSet, List.lookup, hbeq, lookup_filter_ne c k k' h]

theorem missFlow_fixed_fields (o d m u l k : String)
    (oracle : RouteMatrixBody → UpstreamResponse) (c : Cache) (ts : Int) :
    (missFlow o d m u l k oracle c ts).servedFromCache = false
    ∧ (missFlow o d m u l k oracle c ts).outboundCalled = true
    ∧ (missFlow o d m u l k oracle c ts).parserReached = true
    ∧ (missFlow o d m u l k oracle c ts).cacheLookedUp = true
    ∧ (missFlow o d m u l k oracle c ts).outboundBody
        = some (buildRequestBody o d m u l) := by
  unfold missFlow
  dsimp only
  repeat' split
  all_goals exact ⟨rfl, rfl, rfl, rfl, rfl⟩

theorem missFlow_cache_shape (o d m u l k : String)
    (oracle : RouteMatrixBody → UpstreamResponse) (c : Cache) (ts : Int) :
    (missFlow o d m u l k oracle c ts).cache = c
    ∨ ∃ e, (missFlow o d m u l k oracle c ts).cache = cacheSet c k e := by
  unfold missFlow
  dsimp only
  repeat' split
  all_goals first
    | exact Or.inl rfl
    | exact Or.inr ⟨_, rfl⟩

/-- On a validated request with a fresh cache entry, `POST` returns the
cached data and performs no parse or outbound call. -/
theorem POST_hit_eq (input : PostInput) (env : Env)
    (oracle : RouteMatrixBody → UpstreamResponse) (cache : Cache)
    (now ts : Int) (e : CacheEntry)
    (hO : input.origins ≠ "") (hD : input.destinations ≠ "")
    (hK : env.apiKey.getD "" ≠ "")
    (hC : destinationCount input.destinations ≤ MAX_DESTINATIONS)
    (hfound : cacheGet cache (requestKey input) = some e)
    (hfresh : now - e.timestamp < CACHE_TTL_MS) :
    POST input env oracle cache now ts =
      { status := 200, body := e.data, cache := cache, cacheLookedUp := true
        servedFromCache := true, parserReached := false
        outboundCalled := false, outboundBody := none } := by
  have h1 : (input.origins == "") = false := by simp [hO]
  have h2 : (input.destinations == "") = false := by simp [hD]
  have h3 : (env.apiKey.getD "" == "") = false := by simp [hK]
  have h4 : ¬ destinationCount input.destinations > MAX_DESTINATIONS := by omega
  unfold requestKey at hfound
  unfold POST
  simp [h1, h2, h3, h4, hfound, hfresh]

/-- On a validated request with no fresh cache entry, `POST` is the miss
path `missFlow` at the request's fingerprint. -/
theorem POST_miss_eq (input : PostInput) (env : Env)
    (oracle : RouteMatrixBody → UpstreamResponse) (cache : Cache)
    (now ts : Int)
    (hO : input.origins ≠ "") (hD : input.destinations ≠ "")
    (hK : env.apiKey.getD "" ≠ "")
    (hC : destinationCount input.destinations ≤ MAX_DESTINATIONS)
    (hmiss : ∀ e, cacheGet cache (requestKey input) = some e →
      ¬ now - e.timestamp < CACHE_TTL_MS) :
    POST input env oracle cache now ts =
      missFlow input.origins input.destinations (input.mode.getD "DRIVE")
        (input.units.getD "METRIC") (input.language.getD "fr")
        (requestKey input) oracle cache ts := by
  have h1 : (input.origins == "") = false := by simp [hO]
  have h2 : (input.destinations == "") = false := by simp [hD]
  have h3 : (env.apiKey.getD "" == "") = false := by simp [hK]
  have h4 : ¬ destinationCount input.destinations > MAX_DESTINATIONS := by omega
  unfold requestKey at hmiss ⊢
  unfold POST
  cases hg : cacheGet cache (fingerprint input.origins input.destinations
      (input.mode.getD "DRIVE") (input.units.getD "METRIC")
      (input.language.getD "fr")) with
  | none => simp [h1, h2, h3, h4, hg]
  | some e => simp [h1, h2, h3, h4, hg, hmiss e hg]

/-- C3: a request with empty/missing `origins` or `destinations` is
rejected with status 400 and body `{ error: "Missing origins or
destinations" }`, before the cache is consulted, before the parser runs
and before any outbound call; the cache is left unchanged. -/
theorem C3_missing_origins_or_destinations (input : PostInput) (env : Env)
    (oracle : RouteMatrixBody → UpstreamResponse) (cache : Cache)
    (now ts : Int)
    (h : input.origins = "" ∨ input.destinations = "") :
    (POST input env oracle cache now ts).status = 400
    ∧ (POST input env oracle cache now ts).body
        = errorJson "Missing origins or destinations"
    ∧ (POST input env oracle cache now ts).cacheLookedUp = false
    ∧ (POST input env oracle cache now ts).parserReached = false
    ∧ (POST input env oracle cache now ts).outboundCalled = false
    ∧ (POST input env oracle cache now ts).cache = cache := by
  unfold POST
  rcases h with h | h <;> simp [h]

/-- Witness for C3 at a concrete request with empty `origins`. -/
theorem C3_missing_origins_or_destinations_witness :
    ((PostInput.mk "" "34.1,-6.1" none none none).origins = ""
      ∨ (PostInput.mk "" "34.1,-6.1" none none none).destinations = "")
    ∧ ((POST (PostInput.mk "" "34.1,-6.1" none none none) sampleEnv
          (constOracle 200 samplePayload) [] 0 0).status = 400
      ∧ (POST (PostInput.mk "" "34.1,-6.1" none none none) sampleEnv
          (constOracle 200 samplePayload) [] 0 0).body
          = errorJson "Missing origins or destinations"
      ∧ (POST (PostInput.mk "" "34.1,-6.1" none none none) sampleEnv
          (constOracle 200 samplePayload) [] 0 0).cacheLookedUp = false
      ∧ (POST (PostInput.mk "" "34.1,-6.1" none none none) sampleEnv
          (constOracle 200 samplePayload) [] 0 0).parserReached = false
      ∧ (POST (PostInput.mk "" "34.1,-6.1" none none none) sampleEnv
          (constOracle 200 samplePayload) [] 0 0).outboundCalled = false
      ∧ (POST (PostInput.mk "" "34.1,-6.1" none none none) sampleEnv
          (constOracle 200 samplePayload) [] 0 0).cache = []) :=
  ⟨Or.inl rfl,
    C3_missing_origins_or_destinations (PostInput.mk "" "34.1,-6.1" none none none)
      sampleEnv (constOracle 200 samplePayload) [] 0 0 (Or.inl rfl)⟩

/-- C4 counterexample: for the input with empty `origins` and 26
pipe-separated destinations (API key configured), the destination count
exceeds 25 yet the response's error text is "Missing origins or
destinations" — not "Exceeds max 25 destinations." as the claim requires
for every such input (the presence check fires first). -/
theorem C4_counterexample :
    destinationCount destinations26 > 25
    ∧ (POST { origins := "", destinations := destinations26, mode := none
              units := none, language := none } sampleEnv
        (constOracle 200 samplePayload) [] 0 0).status = 400
    ∧ (POST { origins := "", destinations := destinations26, mode := none
              units := none, language := none } sampleEnv
        (constOracle 200 samplePayload) [] 0 0).body
        = errorJson "Missing origins or destinations"
    ∧ errorJson "Missing origins or destinations"
        ≠ errorJson "Exceeds max 25 destinations." := by
  refine ⟨by decide, rfl, rfl, ?_⟩
  intro h
  simp [errorJson] at h

/-- C4 (amended): for every request with non-empty `origins`, a configured
API key and more than 25 pipe-separated destinations, the response has
status 400 and error text exactly "Exceeds max 25 destinations.", no
outbound call is made, the parser does not run and the cache is
unchanged. -/
theorem C4_exceeds_max_destinations (input : PostInput) (env : Env)
    (oracle : RouteMatrixBody → UpstreamResponse) (cache : Cache)
    (now ts : Int)
    (hO : input.origins ≠ "") (hK : env.apiKey.getD "" ≠ "")
    (hC : destinationCount input.destinations > MAX_DESTINATIONS) :
    (POST input env oracle cache now ts).status = 400
    ∧ (POST input env oracle cache now ts).body
        = errorJson "Exceeds max 25 destinations."
    ∧ (POST input env oracle cache now ts).outboundCalled = false
    ∧ (POST input env oracle cache now ts).parserReached = false
    ∧ (POST input env oracle cache now ts).cache = cache := by
  have hD : input.destinations ≠ "" := by
    intro h
    rw [h] at hC
    have : destinationCount "" = 1 := rfl
    rw [this] at hC
    exact absurd hC (by decide)
  have h1 : (input.origins == "") = false := by simp [hO]
  have h2 : (input.destinations == "") = false := by simp [hD]
  have h3 : (env.apiKey.getD "" == "") = false := by simp [hK]
  unfold POST
  simp [h1, h2, h3, hC]
  rfl

/-- Witness for C4 (amended) at 26 destinations. -/
theorem C4_exceeds_max_destinations_witness :
    ((PostInput.mk "34.0,-6.0" destinations26 none none none).origins ≠ ""
      ∧ sampleEnv.apiKey.getD "" ≠ ""
      ∧ destinationCount
          (PostInput.mk "34.0,-6.0" destinations26 none none none).destinations
          > MAX_DESTINATIONS)
    ∧ ((POST (PostInput.mk "34.0,-6.0" destinations26 none none none) sampleEnv
          (constOracle 200 samplePayload) [] 0 0).status = 400
      ∧ (POST (PostInput.mk "34.0,-6.0" destinations26 none none none) sampleEnv
          (constOracle 200 samplePayload) [] 0 0).body
          = errorJson "Exceeds max 25 destinations."
      ∧ (POST (PostInput.mk "34.0,-6.0" destinations26 none none none) sampleEnv
          (constOracle 200 samplePayload) [] 0 0).outboundCalled = false
      ∧ (POST (PostInput.mk "34.0,-6.0" destinations26 none none none) sampleEnv
          (constOracle 200 samplePayload) [] 0 0).parserReached = false
      ∧ (POST (PostInput.mk "34.0,-6.0" destinations26 none none none) sampleEnv
          (constOracle 200 samplePayload) [] 0 0).cache = []) :=
  ⟨⟨by decide, by decide, by decide⟩,
    C4_exceeds_max_destinations
      (PostInput.mk "34.0,-6.0" destinations26 none none none) sampleEnv
      (constOracle 200 samplePayload) [] 0 0
      (by decide) (by decide) (by decide)⟩

/-- C5: on a validated request with no fresh cache entry, when the
upstream call returns HTTP 429 the proxy responds with status 429 and
error text "Rate limit exceeded. Try later.", and the cache is left
unchanged — no entry is written for the request's fingerprint. -/
theorem C5_upstream_429 (input : PostInput) (env : Env)
    (oracle : RouteMatrixBody → UpstreamResponse) (cache : Cache)
    (now ts : Int) (data : Json)
    (hO : input.origins ≠ "") (hD : input.destinations ≠ "")
    (hK : env.apiKey.getD "" ≠ "")
    (hC : destinationCount input.destinations ≤ MAX_DESTINATIONS)
    (hmiss : ∀ e, cacheGet cache (requestKey input) = some e →
      ¬ now - e.timestamp < CACHE_TTL_MS)
    (h429 : oracle (requestWireBody input) = { status := 429, body := .ok data }) :
    (POST input env oracle cache now ts).status = 429
    ∧ (POST input env oracle cache now ts).body
        = errorJson "Rate limit exceeded. Try later."
    ∧ (POST input env oracle cache now ts).cache = cache
    ∧ (POST input env oracle cache now ts).outboundCalled = true := by
  rw [POST_miss_eq input env oracle cache now ts hO hD hK hC hmiss]
  unfold requestWireBody at h429
  unfold missFlow
  dsimp only
  rw [h429]
  simp

/-- Witness for C5: a 429 upstream answer on an empty cache. -/
theorem C5_upstream_429_witness :
    (sampleInput.origins ≠ "" ∧ sampleInput.destinations ≠ ""
      ∧ sampleEnv.apiKey.getD "" ≠ ""
      ∧ destinationCount sampleInput.destinations ≤ MAX_DESTINATIONS
      ∧ (∀ e : CacheEntry, cacheGet [] (requestKey sampleInput) = some e →
          ¬ (0 : Int) - e.timestamp < CACHE_TTL_MS)
      ∧ constOracle 429 Json.null (requestWireBody sampleInput)
          = { status := 429, body := .ok Json.null })
    ∧ ((POST sampleInput sampleEnv (constOracle 429 Json.null) [] 0 0).status = 429
      ∧ (POST sampleInput sampleEnv (constOracle 429 Json.null) [] 0 0).body
          = errorJson "Rate limit exceeded. Try later."
      ∧ (POST sampleInput sampleEnv (constOracle 429 Json.null) [] 0 0).cache = []
      ∧ (POST sampleInput sampleEnv (constOracle 429 Json.null) [] 0 0).outboundCalled
          = true) :=
  ⟨⟨by decide, by decide, by decide, by decide, by simp [cacheGet], rfl⟩,
    C5_upstream_429 sampleInput sampleEnv (constOracle 429 Json.null) [] 0 0
      Json.null (by decide) (by decide) (by decide) (by decide)
      (by simp [cacheGet]) rfl⟩

/-- C1: for every validated request, the response is served from the cache
iff the store holds an entry for the request's fingerprint whose age at
lookup time is strictly less than the 5-minute TTL; a fresh entry's data
is returned with no outbound call, while a stale entry is not served and
a fresh outbound call is attempted instead. -/
theorem C1_fresh_hit_iff (input : PostInput) (env : Env)
    (oracle : RouteMatrixBody → UpstreamResponse) (cache : Cache)
    (now ts : Int)
    (hO : input.origins ≠ "") (hD : input.destinations ≠ "")
    (hK : env.apiKey.getD "" ≠ "")
    (hC : destinationCount input.destinations ≤ MAX_DESTINATIONS) :
    ((POST input env oracle cache now ts).servedFromCache = true
      ↔ ∃ e, cacheGet cache (requestKey input) = some e
          ∧ now - e.timestamp < CACHE_TTL_MS)
    ∧ (∀ e, cacheGet cache (requestKey input) = some e →
        now - e.timestamp < CACHE_TTL_MS →
        (POST input env oracle cache now ts).body = e.data
        ∧ (POST input env oracle cache now ts).outboundCalled = false)
    ∧ (∀ e, cacheGet cache (requestKey input) = some e →
        ¬ now - e.timestamp < CACHE_TTL_MS →
        (POST input env oracle cache now ts).servedFromCache = false
        ∧ (POST input env oracle cache now ts).outboundCalled = true) := by
  cases hg : cacheGet cache (requestKey input) with
  | none =>
    have hmiss : ∀ e, cacheGet cache (requestKey input) = some e →
        ¬ now - e.timestamp < CACHE_TTL_MS := by
      intro e he
      rw [hg] at he
      cases he
    rw [POST_miss_eq input env oracle cache now ts hO hD hK hC hmiss]
    obtain ⟨hs, ho, _, _, _⟩ := missFlow_fixed_fields input.origins
      input.destinations (input.mode.getD "DRIVE") (input.units.getD "METRIC")
      (input.language.getD "fr") (requestKey input) oracle cache ts
    refine ⟨by simp [hs, hg], ?_, ?_⟩
    · intro e he
      cases he
    · intro e he
      cases he
  | some e0 =>
    by_cases hf : now - e0.timestamp < CACHE_TTL_MS
    · rw [POST_hit_eq input env oracle cache now ts e0 hO hD hK hC hg hf]
      refine ⟨iff_of_true rfl ⟨e0, rfl, hf⟩, ?_, ?_⟩
      · intro e he hfr
        injection he with he
        subst he
        exact ⟨rfl, rfl⟩
      · intro e he hfr
        injection he with he
        subst he
        exact absurd hf hfr
    · have hmiss : ∀ e, cacheGet cache (requestKey input) = some e →
          ¬ now - e.timestamp < CACHE_TTL_MS := by
        intro e he
        rw [hg] at he
        injection he with he
        subst he
        exact hf
      rw [POST_miss_eq input env oracle cache now ts hO hD hK hC hmiss]
      obtain ⟨hs, ho, _, _, _⟩ := missFlow_fixed_fields input.origins
        input.destinations (input.mode.getD "DRIVE") (input.units.getD "METRIC")
        (input.language.getD "fr") (requestKey input) oracle cache ts
      refine ⟨by simp [hs, hg, hf], ?_, ?_⟩
      · intro e he hfr
        injection he with he
        subst he
        exact absurd hfr hf
      · intro e he hfr
        exact ⟨hs, ho⟩

/-- Witness for C1: a cache holding a fresh entry for the sample request's
fingerprint (stored at time 0, looked up at time 100). -/
theorem C1_fresh_hit_iff_witness :
    (sampleInput.origins ≠ "" ∧ sampleInput.destinations ≠ ""
      ∧ sampleEnv.apiKey.getD "" ≠ ""
      ∧ destinationCount sampleInput.destinations ≤ MAX_DESTINATIONS)
    ∧ (((POST sampleInput sampleEnv (constOracle 200 samplePayload)
          [(requestKey sampleInput, { data := samplePayload, timestamp := 0 })]
          100 100).servedFromCache = true
        ↔ ∃ e, cacheGet
            [(requestKey sampleInput, { data := samplePayload, timestamp := 0 })]
            (requestKey sampleInput) = some e
            ∧ (100 : Int) - e.timestamp < CACHE_TTL_MS)
      ∧ (∀ e, cacheGet
            [(requestKey sampleInput, { data := samplePayload, timestamp := 0 })]
            (requestKey sampleInput) = some e →
          (100 : Int) - e.timestamp < CACHE_TTL_MS →
          (POST sampleInput sampleEnv (constOracle 200 samplePayload)
            [(requestKey sampleInput, { data := samplePayload, timestamp := 0 })]
            100 100).body = e.data
          ∧ (POST sampleInput sampleEnv (constOracle 200 samplePayload)
            [(requestKey sampleInput, { data := samplePayload, timestamp := 0 })]
            100 100).outboundCalled = false)
      ∧ (∀ e, cacheGet
            [(requestKey sampleInput, { data := samplePayload, timestamp := 0 })]
            (requestKey sampleInput) = some e →
          ¬ (100 : Int) - e.timestamp < CACHE_TTL_MS →
          (POST sampleInput sampleEnv (constOracle 200 samplePayload)
            [(requestKey sampleInput, { data := samplePayload, timestamp := 0 })]
            100 100).servedFromCache = false
          ∧ (POST sampleInput sampleEnv (constOracle 200 samplePayload)
            [(requestKey sampleInput, { data := samplePayload, timestamp := 0 })]
            100 100).outboundCalled = true)) :=
  ⟨⟨by decide, by decide, by decide, by decide⟩,
    C1_fresh_hit_iff sampleInput sampleEnv (constOracle 200 samplePayload)
      [(requestKey sampleInput, { data := samplePayload, timestamp := 0 })]
      100 100 (by decide) (by decide) (by decide) (by decide)⟩

/-- C6 counterexample: a validated cache-miss request whose upstream call
succeeds (HTTP 200) with the falsy payload `false` — the proxy returns the
payload with success status but writes nothing to the cache, so a
successful miss does not always mutate the cache. -/
theorem C6_counterexample :
    (POST sampleInput sampleEnv (constOracle 200 (Json.boolean false)) [] 0 0).status
      = 200
    ∧ (POST sampleInput sampleEnv (constOracle 200 (Json.boolean false)) [] 0 0).body
      = Json.boolean false
    ∧ (POST sampleInput sampleEnv (constOracle 200 (Json.boolean false)) [] 0 0).outboundCalled
      = true
    ∧ (POST sampleInput sampleEnv (constOracle 200 (Json.boolean false)) [] 0 0).cache
      = [] :=
  ⟨rfl, rfl, rfl, rfl⟩

/-- C6 (amended): on a validated cache-miss request whose upstream call
succeeds (2xx), if the payload is truthy the proxy stores it in the cache
keyed by the fingerprint and returns it verbatim with success status; if
the payload is falsy nothing is written and the cache is unchanged — so
cache mutation happens only on a successful miss with a truthy payload. -/
theorem C6_success_stores (input : PostInput) (env : Env)
    (oracle : RouteMatrixBody → UpstreamResponse) (cache : Cache)
    (now ts : Int) (s : Nat) (data : Json)
    (hO : input.origins ≠ "") (hD : input.destinations ≠ "")
    (hK : env.apiKey.getD "" ≠ "")
    (hC : destinationCount input.destinations ≤ MAX_DESTINATIONS)
    (hmiss : ∀ e, cacheGet cache (requestKey input) = some e →
      ¬ now - e.timestamp < CACHE_TTL_MS)
    (hresp : oracle (requestWireBody input) = { status := s, body := .ok data })
    (h2xx : 200 ≤ s ∧ s ≤ 299) :
    (jsonTruthy data = true →
      (POST input env oracle cache now ts).status = 200
      ∧ (POST input env oracle cache now ts).body = data
      ∧ (POST input env oracle cache now ts).cache
          = cacheSet cache (requestKey input) { data := data, timestamp := ts })
    ∧ (jsonTruthy data = false →
        (POST input env oracle cache now ts).cache = cache) := by
  rw [POST_miss_eq input env oracle cache now ts hO hD hK hC hmiss]
  unfold requestWireBody at hresp
  unfold missFlow
  dsimp only
  rw [hresp]
  have d1 : decide (200 ≤ s) = true := decide_eq_true h2xx.1
  have d2 : decide (s ≤ 299) = true := decide_eq_true h2xx.2
  constructor
  · intro ht
    simp [d1, d2, ht]
  · intro hfalse
    cases data <;> simp_all [jsonTruthy]

/-- Witness for C6 (amended): a truthy payload on an empty cache gets
stored under the sample request's fingerprint. -/
theorem C6_success_stores_witness :
    (sampleInput.origins ≠ "" ∧ sampleInput.destinations ≠ ""
      ∧ sampleEnv.apiKey.getD "" ≠ ""
      ∧ destinationCount sampleInput.destinations ≤ MAX_DESTINATIONS
      ∧ (∀ e : CacheEntry, cacheGet [] (requestKey sampleInput) = some e →
          ¬ (0 : Int) - e.timestamp < CACHE_TTL_MS)
      ∧ constOracle 200 samplePayload (requestWireBody sampleInput)
          = { status := 200, body := .ok samplePayload }
      ∧ (200 ≤ 200 ∧ 200 ≤ 299))
    ∧ ((jsonTruthy samplePayload = true →
        (POST sampleInput sampleEnv (constOracle 200 samplePayload) [] 0 0).status = 200
        ∧ (POST sampleInput sampleEnv (constOracle 200 samplePayload) [] 0 0).body
            = samplePayload
        ∧ (POST sampleInput sampleEnv (constOracle 200 samplePayload) [] 0 0).cache
            = cacheSet [] (requestKey sampleInput)
                { data := samplePayload, timestamp := 0 })
      ∧ (jsonTruthy samplePayload = false →
          (POST sampleInput sampleEnv (constOracle 200 samplePayload) [] 0 0).cache
            = [])) :=
  ⟨⟨by decide, by decide, by decide, by decide, by simp [cacheGet], rfl,
    by decide⟩,
    C6_success_stores sampleInput sampleEnv (constOracle 200 samplePayload)
      [] 0 0 200 samplePayload (by decide) (by decide) (by decide) (by decide)
      (by simp [cacheGet]) rfl (by decide)⟩

/-- The miss path on a 2xx upstream answer with truthy data: the payload
is returned with status 200 and stored under the cache key. -/
theorem missFlow_ok_truthy (o d m u l k : String)
    (oracle : RouteMatrixBody → UpstreamResponse) (c : Cache) (ts : Int)
    (s : Nat) (data : Json)
    (hresp : oracle (buildRequestBody o d m u l) = { status := s, body := .ok data })
    (h2xx : 200 ≤ s ∧ s ≤ 299) (ht : jsonTruthy data = true) :
    missFlow o d m u l k oracle c ts =
      { status := 200, body := data
        cache := cacheSet c k { data := data, timestamp := ts }
        cacheLookedUp := true, servedFromCache := false, parserReached := true
        outboundCalled := true, outboundBody := some (buildRequestBody o d m u l) } := by
  unfold missFlow
  dsimp only
  rw [hresp]
  have d1 : decide (200 ≤ s) = true := decide_eq_true h2xx.1
  have d2 : decide (s ≤ 299) = true := decide_eq_true h2xx.2
  simp [d1, d2, ht]

/-- C2 counterexample: two identical valid calls milliseconds apart on an
empty cache, with the upstream answering 429 both times: each of the two
calls issues its own outbound call, so "at most one outbound call" fails
(the first call stores nothing for the second to reuse). -/
theorem C2_counterexample :
    (POST sampleInput sampleEnv (constOracle 429 Json.null) [] 0 0).outboundCalled
      = true
    ∧ (POST sampleInput sampleEnv (constOracle 429 Json.null)
        (POST sampleInput sampleEnv (constOracle 429 Json.null) [] 0 0).cache
        1 1).outboundCalled = true :=
  ⟨rfl, rfl⟩

/-- C2 (amended): for a validated request whose fingerprint is not in the
cache, when the first call's upstream response is 2xx with a truthy
payload, a second identical call whose lookup time is within the TTL of
the first call's store time issues no outbound call and returns exactly
the first call's payload (so the pair issues one outbound call in total);
the shared fingerprint is the literal concatenation
`origins|destinations|mode|units|language` after the defaults. -/
theorem C2_second_call_cached (input : PostInput) (env : Env)
    (oracle : RouteMatrixBody → UpstreamResponse) (cache : Cache)
    (t1 t1s t2 t2s : Int) (s : Nat) (data : Json)
    (hO : input.origins ≠ "") (hD : input.destinations ≠ "")
    (hK : env.apiKey.getD "" ≠ "")
    (hC : destinationCount input.destinations ≤ MAX_DESTINATIONS)
    (hnone : cacheGet cache (requestKey input) = none)
    (hresp : oracle (requestWireBody input) = { status := s, body := .ok data })
    (h2xx : 200 ≤ s ∧ s ≤ 299) (htruthy : jsonTruthy data = true)
    (httl : t2 - t1s < CACHE_TTL_MS) :
    (POST input env oracle cache t1 t1s).outboundCalled = true
    ∧ (POST input env oracle cache t1 t1s).body = data
    ∧ (POST input env oracle (POST input env oracle cache t1 t1s).cache
        t2 t2s).outboundCalled = false
    ∧ (POST input env oracle (POST input env oracle cache t1 t1s).cache
        t2 t2s).servedFromCache = true
    ∧ (POST input env oracle (POST input env oracle cache t1 t1s).cache
        t2 t2s).body = (POST input env oracle cache t1 t1s).body
    ∧ requestKey input
        = input.origins ++ "|" ++ input.destinations ++ "|"
          ++ input.mode.getD "DRIVE" ++ "|" ++ input.units.getD "METRIC"
          ++ "|" ++ input.language.getD "fr" := by
  have hmiss : ∀ e, cacheGet cache (requestKey input) = some e →
      ¬ t1 - e.timestamp < CACHE_TTL_MS := by
    intro e he
    rw [hnone] at he
    cases he
  have hr1 : POST input env oracle cache t1 t1s =
      { status := 200, body := data
        cache := cacheSet cache (requestKey input) { data := data, timestamp := t1s }
        cacheLookedUp := true, servedFromCache := false, parserReached := true
        outboundCalled := true, outboundBody := some (requestWireBody input) } := by
    rw [POST_miss_eq input env oracle cache t1 t1s hO hD hK hC hmiss]
    exact missFlow_ok_truthy input.origins input.destinations
      (input.mode.getD "DRIVE") (input.units.getD "METRIC")
      (input.language.getD "fr") (requestKey input) oracle cache t1s s data
      hresp h2xx htruthy
  have hfound : cacheGet (POST input env oracle cache t1 t1s).cache
      (requestKey input)
      = some { data := data, timestamp := t1s } := by
    rw [hr1]
    exact cacheGet_cacheSet_self cache (requestKey input)
      { data := data, timestamp := t1s }
  have hr2 : POST input env oracle (POST input env oracle cache t1 t1s).cache
      t2 t2s =
      { status := 200, body := data
        cache := (POST input env oracle cache t1 t1s).cache
        cacheLookedUp := true, servedFromCache := true, parserReached := false
        outboundCalled := false, outboundBody := none } := by
    exact POST_hit_eq input env oracle (POST input env oracle cache t1 t1s).cache
      t2 t2s { data := data, timestamp := t1s } hO hD hK hC hfound httl
  rw [hr2, hr1]
  exact ⟨rfl, rfl, rfl, rfl, rfl, rfl⟩

/-- Witness for C2 (amended): first call at times 0/0 on an empty cache,
second call 100 ms later. -/
theorem C2_second_call_cached_witness :
    (sampleInput.origins ≠ "" ∧ sampleInput.destinations ≠ ""
      ∧ sampleEnv.apiKey.getD "" ≠ ""
      ∧ destinationCount sampleInput.destinations ≤ MAX_DESTINATIONS
      ∧ cacheGet [] (requestKey sampleInput) = none
      ∧ constOracle 200 samplePayload (requestWireBody sampleInput)
          = { status := 200, body := .ok samplePayload }
      ∧ (200 ≤ 200 ∧ 200 ≤ 299)
      ∧ jsonTruthy samplePayload = true
      ∧ (100 : Int) - 0 < CACHE_TTL_MS)
    ∧ ((POST sampleInput sampleEnv (constOracle 200 samplePayload) [] 0 0).outboundCalled
        = true
      ∧ (POST sampleInput sampleEnv (constOracle 200 samplePayload) [] 0 0).body
        = samplePayload
      ∧ (POST sampleInput sampleEnv (constOracle 200 samplePayload)
          (POST sampleInput sampleEnv (constOracle 200 samplePayload) [] 0 0).cache
          100 100).outboundCalled = false
      ∧ (POST sampleInput sampleEnv (constOracle 200 samplePayload)
          (POST sampleInput sampleEnv (constOracle 200 samplePayload) [] 0 0).cache
          100 100).servedFromCache = true
      ∧ (POST sampleInput sampleEnv (constOracle 200 samplePayload)
          (POST sampleInput sampleEnv (constOracle 200 samplePayload) [] 0 0).cache
          100 100).body
        = (POST sampleInput sampleEnv (constOracle 200 samplePayload) [] 0 0).body
      ∧ requestKey sampleInput
        = sampleInput.origins ++ "|" ++ sampleInput.destinations ++ "|"
          ++ sampleInput.mode.getD "DRIVE" ++ "|" ++ sampleInput.units.getD "METRIC"
          ++ "|" ++ sampleInput.language.getD "fr") :=
  ⟨⟨by decide, by decide, by decide, by decide, rfl, rfl, by decide, rfl,
    by decide⟩,
    C2_second_call_cached sampleInput sampleEnv (constOracle 200 samplePayload)
      [] 0 0 100 100 200 samplePayload (by decide) (by decide) (by decide)
      (by decide) rfl rfl (by decide) rfl (by decide)⟩

/-- C7: for every origin string, destination string, mode, units and
language, the Wire-Format Adapter's payload has an origins list of exactly
one waypoint wrapping the parsed origin latitude/longitude, a destinations
list with one waypoint per parsed destination in the same order carrying
exactly the parsed latitude/longitude values, `travelMode` the uppercased
mode, `units` the uppercased units string, and `languageCode` verbatim. -/
theorem C7_wire_format (origins destinations mode units language : String) :
    (buildRequestBody origins destinations mode units language).origins
      = [wrapWaypoint (parseOrigin origins).1 (parseOrigin origins).2]
    ∧ (buildRequestBody origins destinations mode units language).destinations.length
      = (parseDestinations destinations).length
    ∧ (∀ i (h1 : i < (buildRequestBody origins destinations mode units
          language).destinations.length)
        (h2 : i < (parseDestinations destinations).length),
        ((buildRequestBody origins destinations mode units
            language).destinations.get ⟨i, h1⟩).waypoint.location.latLng.latitude
          = ((parseDestinations destinations).get ⟨i, h2⟩).lat
        ∧ ((buildRequestBody origins destinations mode units
            language).destinations.get ⟨i, h1⟩).waypoint.location.latLng.longitude
          = ((parseDestinations destinations).get ⟨i, h2⟩).lng)
    ∧ (buildRequestBody origins destinations mode units language).travelMode
      = jsToUpper mode
    ∧ (buildRequestBody origins destinations mode units language).units
      = jsToUpper units
    ∧ (buildRequestBody origins destinations mode units language).languageCode
      = language := by
  refine ⟨rfl, by simp [buildRequestBody], ?_, rfl, rfl, rfl⟩
  intro i h1 h2
  simp [buildRequestBody, wrapWaypoint]

/-- Witness for C7 at the spec's round-trip example: origin "34.0,-6.0",
destinations "34.1,-6.1|34.2,-6.2" — one origin waypoint, two destination
waypoints, parsed values preserved exactly. -/
theorem C7_wire_format_witness :
    (buildRequestBody "34.0,-6.0" "34.1,-6.1|34.2,-6.2" "drive" "metric"
        "fr").origins
      = [wrapWaypoint (parseOrigin "34.0,-6.0").1 (parseOrigin "34.0,-6.0").2]
    ∧ (buildRequestBody "34.0,-6.0" "34.1,-6.1|34.2,-6.2" "drive" "metric"
        "fr").destinations.length
      = (parseDestinations "34.1,-6.1|34.2,-6.2").length
    ∧ (parseDestinations "34.1,-6.1|34.2,-6.2").length = 2
    ∧ (∀ i (h1 : i < (buildRequestBody "34.0,-6.0" "34.1,-6.1|34.2,-6.2"
          "drive" "metric" "fr").destinations.length)
        (h2 : i < (parseDestinations "34.1,-6.1|34.2,-6.2").length),
        ((buildRequestBody "34.0,-6.0" "34.1,-6.1|34.2,-6.2" "drive" "metric"
            "fr").destinations.get ⟨i, h1⟩).waypoint.location.latLng.latitude
          = ((parseDestinations "34.1,-6.1|34.2,-6.2").get ⟨i, h2⟩).lat
        ∧ ((buildRequestBody "34.0,-6.0" "34.1,-6.1|34.2,-6.2" "drive" "metric"
            "fr").destinations.get ⟨i, h1⟩).waypoint.location.latLng.longitude
          = ((parseDestinations "34.1,-6.1|34.2,-6.2").get ⟨i, h2⟩).lng)
    ∧ (buildRequestBody "34.0,-6.0" "34.1,-6.1|34.2,-6.2" "drive" "metric"
        "fr").travelMode = "DRIVE"
    ∧ (buildRequestBody "34.0,-6.0" "34.1,-6.1|34.2,-6.2" "drive" "metric"
        "fr").units = "METRIC"
    ∧ (buildRequestBody "34.0,-6.0" "34.1,-6.1|34.2,-6.2" "drive" "metric"
        "fr").languageCode = "fr" := by
  obtain ⟨h1, h2, h3, h4, h5, h6⟩ :=
    C7_wire_format "34.0,-6.0" "34.1,-6.1|34.2,-6.2" "drive" "metric" "fr"
  exact ⟨h1, h2, by decide, h3, by decide, by decide, h6⟩

/-- C8 counterexample: the destination-count check does not guard the empty
destinations string — splitting `""` on `'|'` yields one element, so its
count, 1, does not exceed the 25 limit and the count check alone would let
an empty destinations string through to the parser. -/
theorem C8_counterexample :
    destinationCount "" = 1 ∧ ¬ destinationCount "" > MAX_DESTINATIONS := by
  decide

/-- C8 (amended): an empty destinations string never reaches the
Geocoordinate Parser, but the upstream guard is the presence check (which
rejects the request with "Missing origins or destinations"), not the
destination-count check: splitting `""` yields one element, which passes
the count check. -/
theorem C8_empty_destinations_guarded (origins : String)
    (mo un la : Option String) (env : Env)
    (oracle : RouteMatrixBody → UpstreamResponse) (cache : Cache)
    (now ts : Int) :
    (POST (PostInput.mk origins "" mo un la) env oracle cache now ts).parserReached = false
    ∧ (POST (PostInput.mk origins "" mo un la) env oracle cache now ts).status = 400
    ∧ (POST (PostInput.mk origins "" mo un la) env oracle cache now ts).body
        = errorJson "Missing origins or destinations"
    ∧ (POST (PostInput.mk origins "" mo un la) env oracle cache now ts).outboundCalled = false
    ∧ destinationCount "" = 1
    ∧ ¬ destinationCount "" > MAX_DESTINATIONS := by
  refine ⟨?_, ?_, ?_, ?_, by decide, by decide⟩
  all_goals
    unfold POST
    simp

/-- Letter-case differences in `mode` or `units` change the fingerprint:
the cache key is built from the raw (non-uppercased) fields. Case-preserving
pairs have equal lengths, so the five pipe-joined components cancel
pairwise. -/
theorem fingerprint_mode_units_ne (o d l m m' u u' : String)
    (hlen : m.data.length = m'.data.length)
    (hne : m ≠ m' ∨ u ≠ u') :
    fingerprint o d m u l ≠ fingerprint o d m' u' l := by
  intro h
  have hd := congrArg String.data h
  simp only [fingerprint, String.data_append, List.append_assoc] at hd
  have h1 := List.append_cancel_left hd
  have h2 := List.append_cancel_left h1
  have h3 := List.append_cancel_left h2
  have h4 := List.append_cancel_left h3
  obtain ⟨hm, hrest⟩ := List.append_inj h4 hlen
  have h5 := List.append_cancel_left hrest
  have hu := List.append_cancel_right h5
  rcases hne with hne | hne
  · exact hne (String.ext hm)
  · exact hne (String.ext hu)

/-- C9: two validated requests identical except for the letter-case of the
`mode` or `units` field (either or both) produce equal outbound wire
payloads (both fields are uppercased before sending) but different
fingerprints, so neither hits the other's cache entry: starting from an
empty cache, the first call goes outbound and the second call misses the
entry the first wrote and goes outbound too. -/
theorem C9_case_cache_split (o d l m m' u u' : String) (env : Env)
    (oracle : RouteMatrixBody → UpstreamResponse) (t1 t1s t2 t2s : Int)
    (hO : o ≠ "") (hD : d ≠ "") (hK : env.apiKey.getD "" ≠ "")
    (hC : destinationCount d ≤ MAX_DESTINATIONS)
    (hne : m ≠ m' ∨ u ≠ u')
    (hupm : jsToUpper m = jsToUpper m') (hupu : jsToUpper u = jsToUpper u') :
    buildRequestBody o d m u l = buildRequestBody o d m' u' l
    ∧ fingerprint o d m u l ≠ fingerprint o d m' u' l
    ∧ (POST ⟨o, d, some m, some u, some l⟩ env oracle [] t1 t1s).outboundCalled
        = true
    ∧ (POST ⟨o, d, some m', some u', some l⟩ env oracle
        (POST ⟨o, d, some m, some u, some l⟩ env oracle [] t1 t1s).cache
        t2 t2s).outboundCalled = true
    ∧ (POST ⟨o, d, some m', some u', some l⟩ env oracle
        (POST ⟨o, d, some m, some u, some l⟩ env oracle [] t1 t1s).cache
        t2 t2s).servedFromCache = false := by
  have hbody : buildRequestBody o d m u l = buildRequestBody o d m' u' l := by
    simp [buildRequestBody, hupm, hupu]
  have hlen : m.data.length = m'.data.length := by
    have hl := congrArg (fun s : String => s.data.length) hupm
    simpa [jsToUpper] using hl
  have hkey : fingerprint o d m u l ≠ fingerprint o d m' u' l :=
    fingerprint_mode_units_ne o d l m m' u u' hlen hne
  have hmiss1 : ∀ e, cacheGet [] (requestKey ⟨o, d, some m, some u, some l⟩)
      = some e → ¬ t1 - e.timestamp < CACHE_TTL_MS := by
    intro e he
    simp [cacheGet] at he
  have hr1 : POST ⟨o, d, some m, some u, some l⟩ env oracle [] t1 t1s
      = missFlow o d m u l (requestKey ⟨o, d, some m, some u, some l⟩)
          oracle [] t1s :=
    POST_miss_eq ⟨o, d, some m, some u, some l⟩ env oracle [] t1 t1s
      hO hD hK hC hmiss1
  obtain ⟨_, ho1, _, _, _⟩ := missFlow_fixed_fields o d m u l
    (requestKey ⟨o, d, some m, some u, some l⟩) oracle [] t1s
  have hnone2 : cacheGet (POST ⟨o, d, some m, some u, some l⟩ env oracle []
      t1 t1s).cache (requestKey ⟨o, d, some m', some u', some l⟩) = none := by
    rw [hr1]
    rcases missFlow_cache_shape o d m u l
        (requestKey ⟨o, d, some m, some u, some l⟩) oracle [] t1s with
      hsh | ⟨e, hsh⟩
    · rw [hsh]
      rfl
    · rw [hsh, cacheGet_cacheSet_ne]
      · rfl
      · exact fun hcontra => hkey (by simpa [requestKey, fingerprint]
          using hcontra.symm)
  have hmiss2 : ∀ e, cacheGet (POST ⟨o, d, some m, some u, some l⟩ env oracle
      [] t1 t1s).cache (requestKey ⟨o, d, some m', some u', some l⟩)
      = some e → ¬ t2 - e.timestamp < CACHE_TTL_MS := by
    intro e he
    rw [hnone2] at he
    cases he
  have hr2 := POST_miss_eq ⟨o, d, some m', some u', some l⟩ env oracle
    (POST ⟨o, d, some m, some u, some l⟩ env oracle [] t1 t1s).cache t2 t2s
    hO hD hK hC hmiss2
  obtain ⟨hs2, ho2, _, _, _⟩ := missFlow_fixed_fields o d m' u' l
    (requestKey ⟨o, d, some m', some u', some l⟩) oracle
    (POST ⟨o, d, some m, some u, some l⟩ env oracle [] t1 t1s).cache t2s
  refine ⟨hbody, hkey, ?_, ?_, ?_⟩
  · rw [hr1]
    exact ho1
  · rw [hr2]
    exact ho2
  · rw [hr2]
    exact hs2

/-- Witness for C9 at units "metric" versus "METRIC" (mode fixed). -/
theorem C9_case_cache_split_witness :
    ("34.0,-6.0" ≠ "" ∧ "34.1,-6.1" ≠ ""
      ∧ sampleEnv.apiKey.getD "" ≠ ""
      ∧ destinationCount "34.1,-6.1" ≤ MAX_DESTINATIONS
      ∧ ("DRIVE" ≠ "DRIVE" ∨ "metric" ≠ "METRIC")
      ∧ jsToUpper "DRIVE" = jsToUpper "DRIVE"
      ∧ jsToUpper "metric" = jsToUpper "METRIC")
    ∧ (buildRequestBody "34.0,-6.0" "34.1,-6.1" "DRIVE" "metric" "fr"
        = buildRequestBody "34.0,-6.0" "34.1,-6.1" "DRIVE" "METRIC" "fr"
      ∧ fingerprint "34.0,-6.0" "34.1,-6.1" "DRIVE" "metric" "fr"
        ≠ fingerprint "34.0,-6.0" "34.1,-6.1" "DRIVE" "METRIC" "fr"
      ∧ (POST ⟨"34.0,-6.0", "34.1,-6.1", some "DRIVE", some "metric", some "fr"⟩
          sampleEnv (constOracle 200 samplePayload) [] 0 0).outboundCalled = true
      ∧ (POST ⟨"34.0,-6.0", "34.1,-6.1", some "DRIVE", some "METRIC", some "fr"⟩
          sampleEnv (constOracle 200 samplePayload)
          (POST ⟨"34.0,-6.0", "34.1,-6.1", some "DRIVE", some "metric", some "fr"⟩
            sampleEnv (constOracle 200 samplePayload) [] 0 0).cache
          1 1).outboundCalled = true
      ∧ (POST ⟨"34.0,-6.0", "34.1,-6.1", some "DRIVE", some "METRIC", some "fr"⟩
          sampleEnv (constOracle 200 samplePayload)
          (POST ⟨"34.0,-6.0", "34.1,-6.1", some "DRIVE", some "metric", some "fr"⟩
            sampleEnv (constOracle 200 samplePayload) [] 0 0).cache
          1 1).servedFromCache = false) :=
  ⟨⟨by decide, by decide, by decide, by decide, Or.inr (by decide),
    by decide, by decide⟩,
    C9_case_cache_split "34.0,-6.0" "34.1,-6.1" "fr" "DRIVE" "DRIVE" "metric"
      "METRIC" sampleEnv (constOracle 200 samplePayload) 0 0 1 1
      (by decide) (by decide) (by decide) (by decide) (Or.inr (by decide))
      (by decide) (by decide)⟩

end RouteMatrix

namespace ServerAuth

/-- C10: `verifyAuthToken` is total — in this embedding every failure path,
including a rejecting/throwing verifier (the `Except.error` case, absorbed
by the `try`/`catch`), returns `null` rather than raising — and it returns
the decoded user id exactly when the Authorization header carries a
verifiable Bearer token: `null` when the header is absent, does not start
with "Bearer ", carries an empty token, or the verifier rejects. -/
theorem C10_verifyAuthToken_cases
    (v : String → Except String DecodedToken) :
    verifyAuthToken none v = none
    ∧ (∀ h, jsStartsWith h "Bearer " = false → verifyAuthToken (some h) v = none)
    ∧ (∀ h, jsStartsWith h "Bearer " = true →
        (jsSplit h "Bearer ").getD 1 "" = "" →
        verifyAuthToken (some h) v = none)
    ∧ (∀ h msg, jsStartsWith h "Bearer " = true →
        v ((jsSplit h "Bearer ").getD 1 "") = .error msg →
        verifyAuthToken (some h) v = none)
    ∧ (∀ h t, jsStartsWith h "Bearer " = true →
        (jsSplit h "Bearer ").getD 1 "" ≠ "" →
        v ((jsSplit h "Bearer ").getD 1 "") = .ok t →
        verifyAuthToken (some h) v = some t.uid) := by
  refine ⟨rfl, ?_, ?_, ?_, ?_⟩
  · intro h hsw
    unfold verifyAuthToken
    simp [hsw]
  · intro h hsw htok
    unfold verifyAuthToken
    dsimp only
    generalize hg : (jsSplit h "Bearer ").getD 1 "" = tok at htok ⊢
    simp [hsw, htok]
  · intro h msg hsw herr
    unfold verifyAuthToken
    dsimp only
    generalize hg : (jsSplit h "Bearer ").getD 1 "" = tok at herr ⊢
    by_cases htok : tok = ""
    · simp [hsw, htok]
    · simp [hsw, htok, herr]
  · intro h t hsw htok hok
    unfold verifyAuthToken
    dsimp only
    generalize hg : (jsSplit h "Bearer ").getD 1 "" = tok at htok hok ⊢
    simp [hsw, htok, hok]

/-- Witness for C10: a verifiable token yields its uid; a header without
the Bearer scheme and an absent header yield null. -/
theorem C10_verifyAuthToken_cases_witness :
    (jsStartsWith "Bearer good-token" "Bearer " = true
      ∧ (jsSplit "Bearer good-token" "Bearer ").getD 1 "" ≠ ""
      ∧ sampleVerifier ((jsSplit "Bearer good-token" "Bearer ").getD 1 "")
          = .ok { uid := "user-1" }
      ∧ jsStartsWith "Token abc" "Bearer " = false)
    ∧ (verifyAuthToken (some "Bearer good-token") sampleVerifier
        = some "user-1"
      ∧ verifyAuthToken (some "Token abc") sampleVerifier = none
      ∧ verifyAuthToken none sampleVerifier = none) := by
  obtain ⟨c1, c2, c3, c4, c5⟩ := C10_verifyAuthToken_cases sampleVerifier
  exact ⟨⟨by decide, by decide, rfl, by decide⟩,
    c5 "Bearer good-token" { uid := "user-1" } (by decide) (by decide) rfl,
    c2 "Token abc" (by decide), c1⟩

end ServerAuth
